import Mathlib

/-!
Verification of the Blightmud core against its specification.

This file gives a shallow embedding of the three source files
`src/session.rs`, `src/ui/command.rs` and `src/lua/lua_script.rs`
and proves or refutes the frozen claims about them.
-/

namespace Blightmud

/-! ## Data model: connections, events, lines -/

/-- `model::Connection` as built by `Connection::new(&host, port, tls)`. -/
structure Connection where
  host : String
  port : Nat
  tls : Bool
deriving DecidableEq, Repr

/-- The event taxonomy from `event.rs` (only the constructors the claims
touch; payloads of out-of-scope variants are elided to strings). -/
inductive Event where
  | Connected
  | Disconnected
  | Disconnect (code : Nat)
  | Reconnect
  | Quit
  | Connect (c : Connection)
  | ServerInput (line : String)
  | Info (s : String)
  | Error (s : String)
  | GMCPSend (s : String)
  | LoadServer (name : String)
  | AddServer (name : String) (c : Connection)
  | RemoveServer (name : String)
  | ListServers
  | LoadScript (path : String)
  | ShowHelp (topic : String)
  | StartLogging (world : String) (reset : Bool)
  | StopLogging
  | ShowSettings
  | ShowSetting (k : String)
  | ToggleSetting (k v : String)
deriving DecidableEq, Repr

/-- Whether an event is an `Info` event. -/
def Event.isInfo : Event → Bool
  | .Info _ => true
  | _ => false

/-- Modelled from the spec: `model::Line` is not under `src/`; per spec
section 3 a line carries a cleaned form (styling stripped) and the flag
set `{matched, gag, bypass_script, prompt}`. -/
structure Flags where
  matched : Bool := false
  gag : Bool := false
  bypass_script : Bool := false
  prompt : Bool := false
deriving DecidableEq, Repr

/-- Modelled from the spec: a received or submitted line, reduced to the
clean form (what `line.clean_line()` returns) and its flags. -/
structure Line where
  clean_line : String
  flags : Flags := {}
deriving DecidableEq, Repr

/-! ## Script host: aliases, triggers, GMCP, timed functions
(`src/lua/lua_script.rs`)

The regex engine and the Lua evaluator are external collaborators.  A
compiled regex is modelled by its capture function
`capturesFn : String → Option (List (Option String))`: `none` means the
pattern does not match (`is_match` is `(capturesFn s).isSome`, which is
exactly the regex-crate guarantee that `captures` is `Some` iff
`is_match`), and a `some` inner entry is a participating capture group
(`None` entries are optional groups that did not participate).  A user
callback is modelled by its result: `Except.error e` is a Lua error with
message `e`, `Except.ok ()` a normal return. -/

/-- `user_data::Alias`: enabled flag, compiled regex, callback. -/
structure Alias where
  enabled : Bool
  capturesFn : String → Option (List (Option String))
  cbResult : List String → Except String Unit

/-- `user_data::Trigger`: enabled and gag flags, compiled regex, callback. -/
structure Trigger where
  enabled : Bool
  gag : Bool
  capturesFn : String → Option (List (Option String))
  cbResult : List String → Except String Unit

/-- Modelled from the spec: `util::output_stack_trace` is not under
`src/`; per spec sections 4.3 and 7 the captured callback error is
formatted and surfaced on the bus as an `Error` event. -/
def output_stack_trace (msg : String) : Event :=
  Event.Error msg

/-- The capture mapping in `check_for_alias_match`/`check_trigger_match`:
`Some(m) => m.as_str().to_string(), None => String::new()`. -/
def capsToStrings (cs : List (Option String)) : List String :=
  cs.map fun c =>
    match c with
    | some m => m
    | none => ""

/-- The loop body of `LuaScript::check_for_alias_match`: iterate the alias
table in order; for each enabled alias whose regex matches, call the
callback with the capture vector (a callback error is routed to
`output_stack_trace` and iteration continues) and set the response flag.
Returns (response, invocation list, emitted events). -/
def aliasLoop (input : String) : List Alias → Bool × List (List String) × List Event
  | [] => (false, [], [])
  | a :: rest =>
    if a.enabled && (a.capturesFn input).isSome then
      let caps := capsToStrings ((a.capturesFn input).getD [])
      let evs :=
        match a.cbResult caps with
        | .error e => [output_stack_trace e]
        | .ok _ => []
      let r := aliasLoop input rest
      (true, caps :: r.2.1, evs ++ r.2.2)
    else aliasLoop input rest

/-- `LuaScript::check_for_alias_match`: if the line bypasses scripts,
return false without touching the alias table; otherwise run the loop on
the clean form of the line. -/
def check_for_alias_match (line : Line) (aliases : List Alias) :
    Bool × List (List String) × List Event :=
  if !line.flags.bypass_script then
    aliasLoop line.clean_line aliases
  else
    (false, [], [])

/-- The loop of `LuaScript::check_trigger_match`: iterate the trigger
table in order; for each enabled trigger whose regex matches the input,
call the callback with the capture vector (errors go to
`output_stack_trace`, iteration continues), then set `matched = true` and
assign `gag = trigger.gag`.  Returns (final flags, invocations, events). -/
def triggerLoop (input : String) (flags : Flags) :
    List Trigger → Flags × List (List String) × List Event
  | [] => (flags, [], [])
  | t :: rest =>
    if t.enabled && (t.capturesFn input).isSome then
      let caps := capsToStrings ((t.capturesFn input).getD [])
      let evs :=
        match t.cbResult caps with
        | .error e => [output_stack_trace e]
        | .ok _ => []
      let r := triggerLoop input { flags with matched := true, gag := t.gag } rest
      (r.1, caps :: r.2.1, evs ++ r.2.2)
    else triggerLoop input flags rest

/-- `LuaScript::check_trigger_match`: snapshot the clean line, run the
table loop over its flags, and write the resulting flags back. -/
def check_trigger_match (line : Line) (triggers : List Trigger) :
    Line × List (List String) × List Event :=
  let r := triggerLoop line.clean_line line.flags triggers
  ({ line with flags := r.1 }, r.2.1, r.2.2)

/-- `LuaScript::check_for_trigger_match`, dispatching on the normal
trigger table (passed here as the list argument). -/
def check_for_trigger_match (line : Line) (triggers : List Trigger) :
    Line × List (List String) × List Event :=
  check_trigger_match line triggers

/-- `LuaScript::check_for_prompt_trigger_match`, dispatching on the
prompt-trigger table (passed here as the list argument). -/
def check_for_prompt_trigger_match (line : Line) (promptTriggers : List Trigger) :
    Line × List (List String) × List Event :=
  check_trigger_match line promptTriggers

/-- Lookup in the Lua timed-function table (`TIMED_FUNCTION_TABLE`),
keyed by numeric id. -/
def lookupTimedFunction (table : List (Nat × Except String Unit)) (id : Nat) :
    Option (Except String Unit) :=
  (table.find? fun p => p.1 = id).map Prod.snd

/-- `LuaScript::run_timed_function`: `table.get(id)?` followed by
`func.call(())?` inside a `Result` context, then `.unwrap()` on that
result.  A missing id or a callback error therefore propagates and the
final `.unwrap()` panics; `none` models that panic. -/
def run_timed_function (table : List (Nat × Except String Unit)) (id : Nat) :
    Option Unit :=
  match lookupTimedFunction table id with
  | none => none
  | some (.error _) => none
  | some (.ok _) => some ()

/-- Rust `str::splitn(2, ' ')`: split on the first space only; a string
with no space yields the one-element list of itself. -/
def splitn2 (s : String) : List String :=
  match s.data.findIdx? (· = ' ') with
  | some i => [String.mk (s.data.take i), String.mk (s.data.drop (i + 1))]
  | none => [s]

/-- `LuaScript::receive_gmcp`: split the payload with `splitn(2, ' ')`,
then read `split[0]` as the message type and `split[1]` as the content to
dispatch to the listener table.  When the payload has no space the split
has a single element and the `split[1]` index panics; `none` models that
panic, `some (t, b)` the dispatched (type, body) pair. -/
def receive_gmcp (data : String) : Option (String × String) :=
  match splitn2 data with
  | [t, c] => some (t, c)
  | _ => none

/-! ## Session lifecycle (`src/session.rs`)

TCP is an external collaborator: the outcome of `TcpStream::connect` is
passed in as `Option Nat`, where `some sock` is a successful connection
handing over socket `sock` (a plain identifier distinguishing distinct
sockets) and `none` a failed attempt.  The `Arc<Mutex<...>>` wrappers are
elided: atomically updated fields become plain fields threaded through
state passing, and `debug!` logging is dropped. -/

/-- Modelled from the spec: `output_buffer.rs` is not under `src/`; per
spec section 3 the `OutputBuffer` holds a byte accumulator for the
current unterminated line and a separate prompt accumulator. -/
structure OutputBuffer where
  accumulator : String
  prompt : String
deriving DecidableEq, Repr

/-- The session fields the claims touch: endpoint, connected flag, socket
slot, and the output buffer behind its mutex. -/
structure Session where
  host : String
  port : Nat
  connected : Bool
  stream : Option Nat
  output_buffer : OutputBuffer
deriving DecidableEq, Repr

/-- Result of `Session::connect`: updated session, events sent to the
main thread writer, and the returned boolean. -/
structure ConnectResult where
  session : Session
  events : List Event
  ret : Bool
deriving DecidableEq, Repr

/-- `Session::connect`: overwrite `host` and `port`, attempt the TCP
connection (outcome given by `tcp`); on success replace the socket slot,
store `connected = true` and send `Connected`; in all cases return the
current value of the connected flag. -/
def Session.connect (s : Session) (host : String) (port : Nat) (tcp : Option Nat) :
    ConnectResult :=
  let s := { s with host := host, port := port }
  match tcp with
  | some sock =>
    let s := { s with stream := some sock, connected := true }
    { session := s, events := [Event.Connected], ret := true }
  | none => { session := s, events := [], ret := s.connected }

/-- `Session::disconnect`: when connected, shut the socket down, empty
the slot and store `connected = false`; then, unconditionally, clear the
prompt of the output buffer.  No event is sent from this function. -/
def Session.disconnect (s : Session) : Session × List Event :=
  let s :=
    if s.connected then
      { s with stream := none, connected := false }
    else
      s
  ({ s with output_buffer := { s.output_buffer with prompt := "" } }, [])

/-! ## Command buffer and command parsing (`src/ui/command.rs`)

The completion tree (`rs_complete`) and the TTS controller are external
collaborators: `completion_tree.complete(..)` is passed to `tab_complete`
as an oracle argument `Option (List String)`, and `speak`/`key_press`
calls are dropped.  `Vec<char>` becomes `List Char`, and `VecDeque`
(push_back, pop_front, indexing from the front) becomes `List String`. -/

/-- `MAX_HISTORY` from `command.rs`. -/
def MAX_HISTORY : Nat := 100

/-- `CommandBuffer` together with the fields of its embedded
`CompletionStepData` (`options`, `index`, `base`). -/
structure CommandBuffer where
  strbuf : String
  buffer : List Char
  cached_buffer : List Char
  history : List String
  current_index : Nat
  cursor_pos : Nat
  completion_opts : List String
  completion_index : Nat
  completion_base : String

/-- The fresh command buffer built by `CommandBuffer::new`. -/
def initialCommandBuffer : CommandBuffer :=
  { strbuf := ""
    buffer := []
    cached_buffer := []
    history := []
    current_index := 0
    cursor_pos := 0
    completion_opts := []
    completion_index := 0
    completion_base := "" }

/-- `CommandBuffer::get_buffer`: refresh `strbuf` from the char buffer
(the returned clone is the new `strbuf`). -/
def CommandBuffer.get_buffer (s : CommandBuffer) : CommandBuffer :=
  { s with strbuf := String.mk s.buffer }

/-- `CommandBuffer::move_left`. -/
def CommandBuffer.move_left (s : CommandBuffer) : CommandBuffer :=
  if s.cursor_pos > 0 then { s with cursor_pos := s.cursor_pos - 1 } else s

/-- `CommandBuffer::move_right`. -/
def CommandBuffer.move_right (s : CommandBuffer) : CommandBuffer :=
  if s.cursor_pos < s.buffer.length then { s with cursor_pos := s.cursor_pos + 1 } else s

/-- `CommandBuffer::move_to_start`. -/
def CommandBuffer.move_to_start (s : CommandBuffer) : CommandBuffer :=
  { s with cursor_pos := 0 }

/-- `CommandBuffer::move_to_end`. -/
def CommandBuffer.move_to_end (s : CommandBuffer) : CommandBuffer :=
  { s with cursor_pos := s.buffer.length }

/-- `CommandBuffer::move_word_right`: from `min(cursor+1, len)`, position
of the next space in `buffer[origin..]`, else the end. -/
def CommandBuffer.move_word_right (s : CommandBuffer) : CommandBuffer :=
  let origin := min (s.cursor_pos + 1) s.buffer.length
  let newPos :=
    match (s.buffer.drop origin).findIdx? (· = ' ') with
    | some pos => origin + pos
    | none => s.buffer.length
  { s with cursor_pos := newPos }

/-- Last index of a space in a char list (Rust `rposition` on a slice). -/
def rfindSpace (l : List Char) : Option Nat :=
  match l.reverse.findIdx? (· = ' ') with
  | some j => some (l.length - 1 - j)
  | none => none

/-- `CommandBuffer::move_word_left`: from `max(cursor,1) - 1`, rposition
of the previous space in `buffer[0..origin]` plus one, else zero. -/
def CommandBuffer.move_word_left (s : CommandBuffer) : CommandBuffer :=
  let origin := max s.cursor_pos 1 - 1
  let newPos :=
    match rfindSpace (s.buffer.take origin) with
    | some pos => pos + 1
    | none => 0
  { s with cursor_pos := newPos }

/-- `CommandBuffer::delete_to_end`: drain `cursor..len`. -/
def CommandBuffer.delete_to_end (s : CommandBuffer) : CommandBuffer :=
  { s with buffer := s.buffer.take s.cursor_pos }

/-- `CommandBuffer::delete_from_start`: drain `0..cursor` and reset the
cursor. -/
def CommandBuffer.delete_from_start (s : CommandBuffer) : CommandBuffer :=
  { s with buffer := s.buffer.drop s.cursor_pos, cursor_pos := 0 }

/-- `CommandBuffer::delete_right`: remove the char at the cursor when one
exists. -/
def CommandBuffer.delete_right (s : CommandBuffer) : CommandBuffer :=
  if s.cursor_pos < s.buffer.length then
    { s with buffer := s.buffer.take s.cursor_pos ++ s.buffer.drop (s.cursor_pos + 1) }
  else
    s

/-- `CommandBuffer::delete_word_right`: remember the origin, move a word
right, and drain `origin..cursor` restoring the cursor to the origin. -/
def CommandBuffer.delete_word_right (s : CommandBuffer) : CommandBuffer :=
  let origin := s.cursor_pos
  let s := s.move_word_right
  if origin ≠ s.cursor_pos then
    { s with buffer := s.buffer.take origin ++ s.buffer.drop s.cursor_pos,
             cursor_pos := origin }
  else
    s

/-- `CommandBuffer::delete_word_left`: remember the origin, move a word
left, and drain `cursor..origin`. -/
def CommandBuffer.delete_word_left (s : CommandBuffer) : CommandBuffer :=
  let origin := s.cursor_pos
  let s := s.move_word_left
  if origin ≠ s.cursor_pos then
    { s with buffer := s.buffer.take s.cursor_pos ++ s.buffer.drop origin }
  else
    s

/-- `CommandBuffer::remove`: when the cursor is positive, remove the char
before it (`remove(cursor-1)` mid-buffer, `pop()` at the end) and move
left. -/
def CommandBuffer.remove (s : CommandBuffer) : CommandBuffer :=
  if s.cursor_pos > 0 then
    let buf :=
      if s.cursor_pos < s.buffer.length then
        s.buffer.take (s.cursor_pos - 1) ++ s.buffer.drop s.cursor_pos
      else
        s.buffer.dropLast
    ({ s with buffer := buf }).move_left
  else
    s

/-- `CommandBuffer::push_key`: insert at the cursor (append when the
cursor is at or past the end), clear the completion step, move right. -/
def CommandBuffer.push_key (s : CommandBuffer) (c : Char) : CommandBuffer :=
  let buf :=
    if s.cursor_pos ≥ s.buffer.length then
      s.buffer ++ [c]
    else
      s.buffer.take s.cursor_pos ++ c :: s.buffer.drop s.cursor_pos
  ({ s with buffer := buf, completion_opts := [], completion_index := 0 }).move_right

/-- `CommandBuffer::tab_complete` with the completion-tree reply for
`strbuf` passed as `oracle`.  When the buffer is longer than one char:
seed the step options from the oracle when empty, then run
`CompletionStepData::next` (cycling index modulo `options.len() + 1`,
falling back to the stashed base past the end) and install the
completion, with the cursor set to `comp.len()` — the UTF-8 byte length
of the completion string, as in the source. -/
def CommandBuffer.tab_complete (s : CommandBuffer) (oracle : Option (List String)) :
    CommandBuffer :=
  if s.buffer.length > 1 then
    let s :=
      if s.completion_opts.isEmpty then
        match oracle with
        | some options => { s with completion_opts := options, completion_base := s.strbuf }
        | none => s
      else
        s
    if !s.completion_opts.isEmpty then
      let lastIndex := s.completion_index
      let s := { s with
        completion_index := (s.completion_index + 1) % (s.completion_opts.length + 1) }
      let comp := (s.completion_opts[lastIndex]?).getD s.completion_base
      { s with buffer := comp.data, cursor_pos := comp.utf8ByteSize }
    else
      s
  else
    s

/-- `CommandBuffer::previous`: with nonempty history, snapshot the buffer
into the cache when at the bottom, step the index down saturating at
zero, and materialize the history entry with the cursor at its end. -/
def CommandBuffer.previous (s : CommandBuffer) : CommandBuffer :=
  if s.history ≠ [] then
    let s :=
      if s.current_index = s.history.length then
        { s with cached_buffer := s.buffer }
      else
        s
    let s := { s with
      current_index := if s.current_index > 0 then s.current_index - 1 else s.current_index }
    let buf := ((s.history[s.current_index]?).getD "").data
    { s with buffer := buf, cursor_pos := buf.length }
  else
    s

/-- `CommandBuffer::next`: step the index up saturating at the history
length; when it moved, materialize the entry (or restore and clear the
cached draft at the bottom); the cursor lands at the buffer end. -/
def CommandBuffer.next (s : CommandBuffer) : CommandBuffer :=
  let newIndex :=
    if s.current_index < s.history.length then s.current_index + 1 else s.current_index
  let s :=
    if newIndex ≠ s.current_index then
      let s := { s with current_index := newIndex }
      if s.current_index = s.history.length then
        { s with buffer := s.cached_buffer, cached_buffer := [] }
      else
        { s with buffer := ((s.history[s.current_index]?).getD "").data }
    else
      s
  { s with cursor_pos := s.buffer.length }

/-- The `while self.history.len() > MAX_HISTORY { self.history.pop_front(); }`
loop of `submit`.  Every iteration shortens the deque by one, so
`h.length` iterations always suffice; that length is passed as explicit
fuel to make the recursion structural. -/
def trimHistAux : Nat → List String → List String
  | 0, h => h
  | n + 1, h => if h.length > MAX_HISTORY then trimHistAux n h.tail else h

/-- The history trim of `submit`: pop from the front while the length
exceeds `MAX_HISTORY`. -/
def trimHist (h : List String) : List String :=
  trimHistAux h.length h

/-- `CommandBuffer::submit`: with a nonempty buffer, take the buffer text
(refreshing `strbuf` via `get_buffer`), append it to the history unless
it equals the last entry, and trim the history to `MAX_HISTORY`; in all
cases reset the navigation index to the history length, clear the buffer
and zero the cursor.  Returns the command and the new state. -/
def CommandBuffer.submit (s : CommandBuffer) : String × CommandBuffer :=
  let (cmd, s) :=
    if !s.buffer.isEmpty then
      let s := s.get_buffer
      let command := s.strbuf
      let hist :=
        if s.history.getLast? = some command then s.history
        else s.history ++ [command]
      (command, { s with history := trimHist hist })
    else
      ("", s)
  (cmd, { s with current_index := s.history.length, buffer := [], cursor_pos := 0 })

/-- The command-buffer operations a key or a script UI event can drive
(spec section 4.4).  `tab_complete` carries the completion-tree reply as
its oracle. -/
inductive Op where
  | push_key (c : Char)
  | remove
  | delete_right
  | delete_to_end
  | delete_from_start
  | delete_word_left
  | delete_word_right
  | move_left
  | move_right
  | move_to_start
  | move_to_end
  | move_word_left
  | move_word_right
  | previous
  | next
  | submit
  | tab_complete (oracle : Option (List String))
  | get_buffer

/-- Run one operation on the command buffer. -/
def applyOp (o : Op) (s : CommandBuffer) : CommandBuffer :=
  match o with
  | .push_key c => s.push_key c
  | .remove => s.remove
  | .delete_right => s.delete_right
  | .delete_to_end => s.delete_to_end
  | .delete_from_start => s.delete_from_start
  | .delete_word_left => s.delete_word_left
  | .delete_word_right => s.delete_word_right
  | .move_left => s.move_left
  | .move_right => s.move_right
  | .move_to_start => s.move_to_start
  | .move_to_end => s.move_to_end
  | .move_word_left => s.move_word_left
  | .move_word_right => s.move_word_right
  | .previous => s.previous
  | .next => s.next
  | .submit => (s.submit).2
  | .tab_complete oracle => s.tab_complete oracle
  | .get_buffer => s.get_buffer

/-- Run a sequence of operations on the command buffer. -/
def runOps (ops : List Op) (s : CommandBuffer) : CommandBuffer :=
  ops.foldl (fun s o => applyOp o s) s

/-! ## `parse_command` (`src/ui/command.rs`) -/

/-- Rust `char::to_ascii_lowercase`: shift only the ASCII uppercase
letters. -/
def asciiLowerChar (c : Char) : Char :=
  if 'A' ≤ c ∧ c ≤ 'Z' then Char.ofNat (c.toNat + 32) else c

/-- Rust `str::to_ascii_lowercase`. -/
def asciiLower (s : String) : String :=
  String.mk (s.data.map asciiLowerChar)

/-- Accumulator step for `splitWs`. -/
def splitWsAux : List Char → List Char → List String
  | [], acc => if acc.isEmpty then [] else [String.mk acc.reverse]
  | c :: rest, acc =>
    if c.isWhitespace then
      if acc.isEmpty then splitWsAux rest []
      else String.mk acc.reverse :: splitWsAux rest []
    else
      splitWsAux rest (c :: acc)

/-- Rust `str::split_whitespace`: the maximal nonempty runs between
whitespace. -/
def splitWs (s : String) : List String :=
  splitWsAux s.data []

/-- Digit-folding step for `parseU16`. -/
def parseU16Digits : List Char → Nat → Option Nat
  | [], acc => some acc
  | c :: rest, acc =>
    if c.isDigit then parseU16Digits rest (acc * 10 + (c.toNat - '0'.toNat))
    else none

/-- Rust `str::parse::<u16>()`: an optional leading `+`, at least one
digit, all digits, and a value within `u16` range. -/
def parseU16 (s : String) : Option Nat :=
  let cs :=
    match s.data with
    | '+' :: rest => rest
    | cs => cs
  if cs.isEmpty then none
  else
    match parseU16Digits cs 0 with
    | some v => if v ≤ 65535 then some v else none
    | none => none

/-- The match arms of `parse_command` on the first whitespace token of the
lowercased message (`cmd`) and the remaining tokens (`rest`); `msg` is
the original message used by the server-input fallback. -/
def dispatchTok (cmd : String) (rest : List String) (msg : String) : Event :=
  if cmd = "/connect" then
    match rest with
    | [] => .Info "USAGE: /connect <host> <port>"
    | [name] => .LoadServer name
    | host :: portTok :: r2 =>
      let tls :=
        match r2.head? with
        | some t => t = "tls"
        | none => false
      match parseU16 portTok with
      | some port => .Connect { host := host, port := port, tls := tls }
      | none => .Error "USAGE: /connect <host: String> <port: Positive number>"
  else if cmd = "/disconnect" ∨ cmd = "/dc" then .Disconnect 0
  else if cmd = "/reconnect" ∨ cmd = "/rc" then .Reconnect
  else if cmd = "/add_server" then
    match rest with
    | name :: host :: portTok :: r2 =>
      let tls :=
        match r2.head? with
        | some t => t = "tls"
        | none => false
      match parseU16 portTok with
      | some port => .AddServer name { host := host, port := port, tls := tls }
      | none =>
        .Error "USAGE: /add_server <name: String> <host: String> <port: Positive number>"
    | _ => .Info "USAGE: /add_server <name: String> <host: String> <port: Positive number>"
  else if cmd = "/remove_server" then
    match rest with
    | name :: _ => .RemoveServer name
    | [] => .Info "USAGE: /remove_server <name: String>"
  else if cmd = "/list_servers" ∨ cmd = "/ls" then .ListServers
  else if cmd = "/load" then
    match rest with
    | path :: _ => .LoadScript path
    | [] => .Info "USAGE: /load <path>"
  else if cmd = "/help" then
    match rest with
    | topic :: _ => .ShowHelp topic
    | [] => .ShowHelp "help"
  else if cmd = "/start_log" then
    match rest with
    | world :: _ => .StartLogging world true
    | [] => .Info "USAGE: /start_log <name>"
  else if cmd = "/stop_log" then .StopLogging
  else if cmd = "/settings" then .ShowSettings
  else if cmd = "/set" then
    match rest with
    | key :: value :: _ => .ToggleSetting key value
    | [key] => .ShowSetting key
    | [] => .Info "USAGE: /set <setting> or /set <setting> <new_value>"
  else if cmd = "/quit" ∨ cmd = "/q" then .Quit
  else .ServerInput msg

/-- `parse_command`: lowercase the message, split it on whitespace, and
dispatch on the leading token; input with no recognized leading slash
command (including whitespace-only input) falls through to
`ServerInput` carrying the original message. -/
def parse_command (msg : String) : Event :=
  match splitWs (asciiLower msg) with
  | cmd :: rest => dispatchTok cmd rest msg
  | [] => .ServerInput msg

/-- The slash commands `parse_command` recognizes at the head position. -/
def knownCommandHeads : List String :=
  ["/connect", "/disconnect", "/dc", "/reconnect", "/rc", "/add_server",
   "/remove_server", "/list_servers", "/ls", "/load", "/help", "/start_log",
   "/stop_log", "/settings", "/set", "/quit", "/q"]

/-- The first whitespace token of the lowercased message (the empty
string when there is none). -/
def commandHead (msg : String) : String :=
  ((splitWs (asciiLower msg)).head?).getD ""

/-! ## Derived notions used in theorem statements -/

/-- An alias fires on an input: it is enabled and its regex matches
(`enabled && regex.is_match(..)` in the source loop). -/
def firesA (input : String) (a : Alias) : Bool :=
  a.enabled && (a.capturesFn input).isSome

/-- The capture vector an alias callback receives for an input. -/
def capsOfA (input : String) (a : Alias) : List String :=
  capsToStrings ((a.capturesFn input).getD [])

/-- The events alias dispatch emits for one alias on an input: the stack
trace of the callback error, or nothing. -/
def evsOfA (input : String) (a : Alias) : List Event :=
  match a.cbResult (capsOfA input a) with
  | .error e => [output_stack_trace e]
  | .ok _ => []

/-- A trigger fires on an input: it is enabled and its regex matches. -/
def firesT (input : String) (t : Trigger) : Bool :=
  t.enabled && (t.capturesFn input).isSome

/-- The capture vector a trigger callback receives for an input. -/
def capsOfT (input : String) (t : Trigger) : List String :=
  capsToStrings ((t.capturesFn input).getD [])

/-- The events trigger dispatch emits for one trigger on an input. -/
def evsOfT (input : String) (t : Trigger) : List Event :=
  match t.cbResult (capsOfT input t) with
  | .error e => [output_stack_trace e]
  | .ok _ => []

/-- No two adjacent entries of the history are equal. -/
def adjacentDistinct (h : List String) : Prop :=
  List.Chain' (· ≠ ·) h

/-- The claimed history invariant: adjacent entries distinct and length
bounded by `MAX_HISTORY`. -/
def historyInv (h : List String) : Prop :=
  adjacentDistinct h ∧ h.length ≤ MAX_HISTORY

/-! ## Concrete fixtures used by counterexamples and witnesses -/

/-- A line whose clean form is `test`, with default (all-false) flags. -/
def c2line : Line :=
  { clean_line := "test" }

/-- An enabled gagging trigger whose pattern matches exactly `test`
(the regex `^test$` of the seed scenario). -/
def c2trigGag : Trigger :=
  { enabled := true, gag := true,
    capturesFn := fun s => if s = "test" then some [some "test"] else none,
    cbResult := fun _ => .ok () }

/-- An enabled non-gagging trigger with the same `^test$` pattern. -/
def c2trigNoGag : Trigger :=
  { enabled := true, gag := false,
    capturesFn := fun s => if s = "test" then some [some "test"] else none,
    cbResult := fun _ => .ok () }

/-- An enabled match-anything alias whose callback raises an error. -/
def c5aliasFailing : Alias :=
  { enabled := true, capturesFn := fun _ => some [some "hi"],
    cbResult := fun _ => .error "runtime error in callback" }

/-- An enabled match-anything alias whose callback returns normally. -/
def c5aliasNormal : Alias :=
  { enabled := true, capturesFn := fun _ => some [some "hi"],
    cbResult := fun _ => .ok () }

/-- A freshly built, not-connected session (as `SessionBuilder::build`
leaves it, up to the elided fields). -/
def idleSession : Session :=
  { host := "", port := 0, connected := false, stream := none,
    output_buffer := { accumulator := "", prompt := "" } }

/-- A connected session holding socket 7, with text pending in the
output buffer. -/
def c4connectedSession : Session :=
  { host := "mud.example.com", port := 4000, connected := true, stream := some 7,
    output_buffer := { accumulator := "half a line", prompt := "gold>" } }

/-- A not-connected session with text pending in the output buffer. -/
def c4idleSession : Session :=
  { host := "mud.example.com", port := 4000, connected := false, stream := none,
    output_buffer := { accumulator := "half a line", prompt := "gold>" } }

/-! ## Helper lemmas -/

/-- Closed form of the alias dispatch loop: the response is whether any
alias fires, the callbacks invoked are exactly those of the firing
aliases in table order with their capture vectors, and the emitted
events are the stack traces of the failing callbacks in order. -/
theorem aliasLoop_eq (input : String) (as : List Alias) :
    aliasLoop input as =
      (as.any (firesA input),
       (as.filter (firesA input)).map (capsOfA input),
       ((as.filter (firesA input)).map (evsOfA input)).flatten) := by
  induction as with
  | nil => rfl
  | cons a rest ih =>
    cases h : firesA input a with
    | true =>
      have h2 : (a.enabled && (a.capturesFn input).isSome) = true := h
      simp [aliasLoop, h2, h, ih, List.filter_cons, capsOfA, evsOfA]
    | false =>
      have h2 : (a.enabled && (a.capturesFn input).isSome) = false := h
      simp [aliasLoop, h2, h, ih, List.filter_cons]

/-- Closed form of the trigger dispatch loop: `matched` becomes its prior
value or-ed with whether any trigger fires, `gag` is overwritten by each
firing trigger in turn (so it ends at the gag flag of the last firing
trigger, or keeps its prior value when none fires), and the firing
callbacks run in table order. -/
theorem triggerLoop_eq (input : String) (flags : Flags) (ts : List Trigger) :
    triggerLoop input flags ts =
      ({ flags with
          matched := flags.matched || ts.any (firesT input),
          gag := (ts.filter (firesT input)).foldl (fun _ t => t.gag) flags.gag },
       (ts.filter (firesT input)).map (capsOfT input),
       ((ts.filter (firesT input)).map (evsOfT input)).flatten) := by
  induction ts generalizing flags with
  | nil => simp [triggerLoop]
  | cons t rest ih =>
    cases h : firesT input t with
    | true =>
      have h2 : (t.enabled && (t.capturesFn input).isSome) = true := h
      simp [triggerLoop, h2, h, ih, List.filter_cons, capsOfT, evsOfT]
    | false =>
      have h2 : (t.enabled && (t.capturesFn input).isSome) = false := h
      simp [triggerLoop, h2, h, ih, List.filter_cons]

/-- The trim loop does nothing when the history is already within the
cap. -/
theorem trimHistAux_id (n : Nat) (h : List String) (hle : h.length ≤ MAX_HISTORY) :
    trimHistAux n h = h := by
  cases n with
  | zero => rfl
  | succ n => simp [trimHistAux, Nat.not_lt.mpr hle]

/-- `trimHist` does nothing when the history is already within the cap. -/
theorem trimHist_id (h : List String) (hle : h.length ≤ MAX_HISTORY) :
    trimHist h = h :=
  trimHistAux_id _ _ hle

/-- With enough fuel, the trim loop lands at or below the cap. -/
theorem trimHistAux_length (n : Nat) (h : List String) (hb : h.length ≤ MAX_HISTORY + n) :
    (trimHistAux n h).length ≤ MAX_HISTORY := by
  induction n generalizing h with
  | zero => simpa using hb
  | succ n ih =>
    by_cases hl : h.length > MAX_HISTORY
    · rw [trimHistAux, if_pos hl]
      apply ih
      have ht : h.tail.length = h.length - 1 := List.length_tail h
      omega
    · rw [trimHistAux, if_neg hl]
      omega

/-- The trimmed history never exceeds the cap. -/
theorem trimHist_length (h : List String) : (trimHist h).length ≤ MAX_HISTORY := by
  apply trimHistAux_length
  omega

/-- The trim loop preserves adjacent distinctness. -/
theorem trimHistAux_chain (n : Nat) (h : List String) (hc : List.Chain' (· ≠ ·) h) :
    List.Chain' (· ≠ ·) (trimHistAux n h) := by
  induction n generalizing h with
  | zero => exact hc
  | succ n ih =>
    by_cases hl : h.length > MAX_HISTORY
    · rw [trimHistAux, if_pos hl]
      exact ih _ hc.tail
    · rw [trimHistAux, if_neg hl]
      exact hc

/-- `trimHist` preserves adjacent distinctness. -/
theorem trimHist_chain (h : List String) (hc : List.Chain' (· ≠ ·) h) :
    List.Chain' (· ≠ ·) (trimHist h) :=
  trimHistAux_chain _ _ hc

/-- Appending an entry different from the last preserves adjacent
distinctness. -/
theorem chain_append_single (h : List String) (c : String)
    (hc : List.Chain' (· ≠ ·) h) (hne : h.getLast? ≠ some c) :
    List.Chain' (· ≠ ·) (h ++ [c]) := by
  rw [List.chain'_append]
  refine ⟨hc, List.chain'_singleton c, ?_⟩
  intro x hx y hy
  simp only [List.head?_cons, Option.mem_def, Option.some.injEq] at hy
  subst hy
  rintro rfl
  exact hne hx

/-- The history after a `submit`: unchanged on an empty buffer, else the
dedup-against-last append followed by the trim. -/
theorem submit_history (s : CommandBuffer) :
    ((s.submit).2).history =
      if s.buffer.isEmpty then s.history
      else
        trimHist (if s.history.getLast? = some (String.mk s.buffer) then s.history
                  else s.history ++ [String.mk s.buffer]) := by
  by_cases hb : s.buffer.isEmpty <;>
    simp [CommandBuffer.submit, CommandBuffer.get_buffer, hb]

/-- `submit` preserves the history invariant. -/
theorem submit_preserves_inv (s : CommandBuffer) (hi : historyInv s.history) :
    historyInv (((s.submit).2).history) := by
  rw [historyInv, adjacentDistinct] at hi ⊢
  rw [submit_history]
  by_cases hb : s.buffer.isEmpty
  · simpa [hb] using hi
  · simp only [hb, if_false]
    by_cases hl : s.history.getLast? = some (String.mk s.buffer)
    · rw [if_pos hl, trimHist_id _ hi.2]
      exact hi
    · rw [if_neg hl]
      exact ⟨trimHist_chain _ (chain_append_single _ _ hi.1 hl), trimHist_length _⟩

/-- No operation other than `submit` touches the history. -/
theorem applyOp_history (o : Op) (s : CommandBuffer) (ho : o ≠ Op.submit) :
    (applyOp o s).history = s.history := by
  cases o <;> first
    | exact absurd rfl ho
    | (simp only [applyOp, CommandBuffer.push_key, CommandBuffer.remove,
        CommandBuffer.delete_right, CommandBuffer.delete_to_end,
        CommandBuffer.delete_from_start, CommandBuffer.delete_word_left,
        CommandBuffer.delete_word_right, CommandBuffer.move_left, CommandBuffer.move_right,
        CommandBuffer.move_to_start, CommandBuffer.move_to_end, CommandBuffer.move_word_left,
        CommandBuffer.move_word_right, CommandBuffer.previous, CommandBuffer.next,
        CommandBuffer.tab_complete, CommandBuffer.get_buffer]
       repeat' split
       all_goals rfl)

/-- Any operation sequence preserves the history invariant. -/
theorem runOps_inv (ops : List Op) (s : CommandBuffer) (hi : historyInv s.history) :
    historyInv ((runOps ops s).history) := by
  induction ops generalizing s with
  | nil => exact hi
  | cons o rest ih =>
    have hstep : historyInv ((applyOp o s).history) := by
      by_cases ho : o = Op.submit
      · subst ho
        exact submit_preserves_inv s hi
      · rw [applyOp_history o s ho]
        exact hi
    exact ih _ hstep

/-! ## Claim theorems -/

/-- C1: `receive_gmcp` splits the payload on the first space only and
dispatches the part before the space as the type and the remainder as
the body — but a payload with no space makes `split[1]` index out of
bounds and the function panics (`none`) instead of dispatching the
whole payload with an empty body, so the no-space half of the claim
fails on the code. -/
theorem c1_receive_gmcp_split :
    receive_gmcp "Core.Hello 1" = some ("Core.Hello", "1") ∧
    receive_gmcp "Core.Hello " = some ("Core.Hello", "") ∧
    receive_gmcp "Core.Ping" = none := by
  decide

/-- C2 counterexample: for the line `test` with both flags initially
false and two enabled triggers matching it, the first gagging and the
second not, the final gag flag is `false`, while the claimed formula
`line.gag OR the gag flags of all matching triggers` gives `true`; and
with no triggers at all, a line whose matched flag starts `true` keeps
it, refuting `matched iff some enabled trigger matched`. -/
theorem c2_counterexample :
    (check_trigger_match c2line [c2trigGag, c2trigNoGag]).1.flags.gag = false ∧
    (c2line.flags.gag || (c2trigGag.gag || c2trigNoGag.gag)) = true ∧
    firesT c2line.clean_line c2trigGag = true ∧
    firesT c2line.clean_line c2trigNoGag = true ∧
    (check_trigger_match { clean_line := "x", flags := { matched := true } } []).1.flags.matched
      = true := by
  decide

/-- C2 (amended): `check_trigger_match` iterates enabled triggers in
insertion order and invokes the callback of every matching trigger with
its capture vector; afterwards the matched flag is its prior value or-ed
with whether some enabled trigger matched, and the gag flag is
overwritten with the gag flag of the last matching trigger (plain
assignment, keeping its prior value when none matched). -/
theorem c2_trigger_dispatch (line : Line) (ts : List Trigger) :
    (check_trigger_match line ts).1.clean_line = line.clean_line ∧
    (check_trigger_match line ts).1.flags.matched
      = (line.flags.matched || ts.any (firesT line.clean_line)) ∧
    (check_trigger_match line ts).1.flags.gag
      = (ts.filter (firesT line.clean_line)).foldl (fun _ t => t.gag) line.flags.gag ∧
    (check_trigger_match line ts).2.1
      = (ts.filter (firesT line.clean_line)).map (capsOfT line.clean_line) := by
  simp [check_trigger_match, triggerLoop_eq]

/-- C3 counterexample: from a fresh session, two successive successful
`connect` calls to the same endpoint emit `Connected` twice (not once),
and the second call replaces the socket stored by the first. -/
theorem c3_counterexample :
    ((idleSession.connect "mud.example.com" 4000 (some 1)).events ++
      (((idleSession.connect "mud.example.com" 4000 (some 1)).session.connect
          "mud.example.com" 4000 (some 2)).events))
      = [Event.Connected, Event.Connected] ∧
    ((idleSession.connect "mud.example.com" 4000 (some 1)).session.connect
        "mud.example.com" 4000 (some 2)).session.stream = some 2 ∧
    (some 2 : Option Nat) ≠ some 1 := by
  decide

/-- C3 (amended): `connect` performs no already-connected check; for any
session and endpoint, two successive `connect(h, p)` calls whose TCP
attempts both succeed emit one `Connected` event each, and the second
call overwrites the socket slot with its own socket and returns true. -/
theorem c3_connect_repeats (s : Session) (h : String) (p a b : Nat) :
    ((s.connect h p (some a)).events ++
      (((s.connect h p (some a)).session.connect h p (some b)).events))
      = [Event.Connected, Event.Connected] ∧
    ((s.connect h p (some a)).session.connect h p (some b)).session.stream = some b ∧
    ((s.connect h p (some a)).session.connect h p (some b)).ret = true := by
  simp [Session.connect]

/-- C4 counterexample: `disconnect` on a connected session emits no
`Disconnected` event, and on a not-connected session it is not a no-op:
it clears the prompt accumulator of the output buffer. -/
theorem c4_counterexample :
    Event.Disconnected ∉ (Session.disconnect c4connectedSession).2 ∧
    (Session.disconnect c4idleSession).1 ≠ c4idleSession ∧
    (Session.disconnect c4idleSession).1.output_buffer.prompt = "" := by
  decide

/-- C4 (amended): `disconnect`, when connected, clears the socket slot
and sets connected to false; in every case — connected or not — it
clears the prompt buffer; it emits no event itself, and nothing else of
the session (including the accumulator of the output buffer) changes. -/
theorem c4_disconnect_spec (s : Session) :
    Session.disconnect s =
      ({ s with stream := if s.connected then none else s.stream,
                connected := false,
                output_buffer := { s.output_buffer with prompt := "" } }, []) := by
  by_cases h : s.connected <;> simp [Session.disconnect, h]

/-- C5: alias and trigger dispatch capture callback errors via
`output_stack_trace` and continue (third conjunct: the failing alias
produces an `Error` event and the following alias still runs), but
`run_timed_function` unwraps the Lua result, so a timed-function
callback error — or a missing id — panics (`none`) instead of being
captured, refuting the claim for timed functions. -/
theorem c5_timed_function_error_aborts :
    run_timed_function [(1, Except.error "runtime error in callback")] 1 = none ∧
    run_timed_function [(1, Except.ok ())] 1 = some () ∧
    check_for_alias_match { clean_line := "hi" } [c5aliasFailing, c5aliasNormal] =
      (true, [["hi"], ["hi"]], [Event.Error "runtime error in callback"]) := by
  decide

/-- C6: the cursor bound `cursor_pos ≤ |buffer|` (counting chars) fails:
after pushing two chars and tab-completing with the non-ASCII option
`åäö`, `tab_complete` installs the 3-char completion but sets the cursor
to its UTF-8 byte length 6, exceeding the buffer length. -/
theorem c6_tab_complete_cursor_overflow :
    (runOps [Op.push_key 'a', Op.push_key 'b', Op.tab_complete (some ["åäö"])]
        initialCommandBuffer).cursor_pos = 6 ∧
    (runOps [Op.push_key 'a', Op.push_key 'b', Op.tab_complete (some ["åäö"])]
        initialCommandBuffer).buffer.length = 3 ∧
    ¬ (runOps [Op.push_key 'a', Op.push_key 'b', Op.tab_complete (some ["åäö"])]
        initialCommandBuffer).cursor_pos ≤
      (runOps [Op.push_key 'a', Op.push_key 'b', Op.tab_complete (some ["åäö"])]
        initialCommandBuffer).buffer.length := by
  decide

/-- C7: `check_for_alias_match` returns false and invokes no callback on
a bypass-script line; otherwise it invokes the callback of every enabled
alias whose regex matches the clean line, in table order, with the
mapped capture vector (non-participating groups become empty strings),
and returns true exactly when some enabled alias matched. -/
theorem c7_alias_dispatch (line : Line) (aliases : List Alias) :
    check_for_alias_match line aliases =
      if line.flags.bypass_script then (false, [], [])
      else
        (aliases.any (firesA line.clean_line),
         (aliases.filter (firesA line.clean_line)).map (capsOfA line.clean_line),
         ((aliases.filter (firesA line.clean_line)).map (evsOfA line.clean_line)).flatten) := by
  by_cases h : line.flags.bypass_script <;>
    simp [check_for_alias_match, h, aliasLoop_eq]

/-- C8 counterexample: `/connect` with a non-numeric port yields an
`Error` event (carrying the USAGE string), not the claimed `Info`
event. -/
theorem c8_counterexample :
    parse_command "/connect localhost abc"
      = Event.Error "USAGE: /connect <host: String> <port: Positive number>" ∧
    (parse_command "/connect localhost abc").isInfo = false := by
  decide

/-- C8 (amended): unknown slash commands and non-slash input map to
`ServerInput`; a missing argument of a known slash command yields an
`Info` event with the USAGE string; a non-numeric port for `/connect` or
`/add_server` yields an `Error` event (not `Info`) with the USAGE
string. -/
theorem c8_usage_routing (msg : String) :
    (commandHead msg ∉ knownCommandHeads → parse_command msg = Event.ServerInput msg) ∧
    (splitWs (asciiLower msg) = ["/connect"] →
      parse_command msg = Event.Info "USAGE: /connect <host> <port>") ∧
    (∀ h p r, splitWs (asciiLower msg) = "/connect" :: h :: p :: r → parseU16 p = none →
      parse_command msg = Event.Error "USAGE: /connect <host: String> <port: Positive number>") ∧
    (∀ r, splitWs (asciiLower msg) = "/add_server" :: r → r.length < 3 →
      parse_command msg
        = Event.Info "USAGE: /add_server <name: String> <host: String> <port: Positive number>") ∧
    (∀ n h p r, splitWs (asciiLower msg) = "/add_server" :: n :: h :: p :: r → parseU16 p = none →
      parse_command msg
        = Event.Error "USAGE: /add_server <name: String> <host: String> <port: Positive number>") ∧
    (splitWs (asciiLower msg) = ["/remove_server"] →
      parse_command msg = Event.Info "USAGE: /remove_server <name: String>") ∧
    (splitWs (asciiLower msg) = ["/load"] →
      parse_command msg = Event.Info "USAGE: /load <path>") ∧
    (splitWs (asciiLower msg) = ["/start_log"] →
      parse_command msg = Event.Info "USAGE: /start_log <name>") ∧
    (splitWs (asciiLower msg) = ["/set"] →
      parse_command msg = Event.Info "USAGE: /set <setting> or /set <setting> <new_value>") := by
  refine ⟨?_, ?_, ?_, ?_, ?_, ?_, ?_, ?_, ?_⟩
  · intro hmem
    rcases hts : splitWs (asciiLower msg) with _ | ⟨cmd, rest⟩
    · simp [parse_command, hts]
    · have hcmd : commandHead msg = cmd := by simp [commandHead, hts]
      rw [hcmd] at hmem
      simp only [knownCommandHeads, List.mem_cons, List.not_mem_nil, or_false, not_or] at hmem
      obtain ⟨h1, h2, h3, h4, h5, h6, h7, h8, h9, h10, h11, h12, h13, h14, h15, h16, h17⟩ := hmem
      simp [parse_command, hts, dispatchTok, h1, h2, h3, h4, h5, h6, h7, h8, h9, h10, h11,
        h12, h13, h14, h15, h16, h17]
  · intro hts
    simp [parse_command, hts, dispatchTok]
  · intro h p r hts hp
    simp [parse_command, hts, dispatchTok, hp]
  · intro r hts hr
    rcases r with _ | ⟨a, _ | ⟨b, _ | ⟨c, r3⟩⟩⟩
    · simp [parse_command, hts, dispatchTok]
    · simp [parse_command, hts, dispatchTok]
    · simp [parse_command, hts, dispatchTok]
    · exfalso
      simp only [List.length_cons] at hr
      omega
  · intro n h p r hts hp
    simp [parse_command, hts, dispatchTok, hp]
  · intro hts
    simp [parse_command, hts, dispatchTok]
  · intro hts
    simp [parse_command, hts, dispatchTok]
  · intro hts
    simp [parse_command, hts, dispatchTok]
  · intro hts
    simp [parse_command, hts, dispatchTok]

/-- C8 witness: the routing theorem evaluated at one concrete input per
shape. -/
theorem c8_usage_routing_witness :
    parse_command "say hello" = Event.ServerInput "say hello" ∧
    parse_command "/connect" = Event.Info "USAGE: /connect <host> <port>" ∧
    parse_command "/connect mud.example.com xyz"
      = Event.Error "USAGE: /connect <host: String> <port: Positive number>" ∧
    parse_command "/add_server nameA"
      = Event.Info "USAGE: /add_server <name: String> <host: String> <port: Positive number>" ∧
    parse_command "/add_server nameA mud.example.com xyz"
      = Event.Error "USAGE: /add_server <name: String> <host: String> <port: Positive number>" ∧
    parse_command "/remove_server" = Event.Info "USAGE: /remove_server <name: String>" ∧
    parse_command "/load" = Event.Info "USAGE: /load <path>" ∧
    parse_command "/start_log" = Event.Info "USAGE: /start_log <name>" ∧
    parse_command "/set" = Event.Info "USAGE: /set <setting> or /set <setting> <new_value>" :=
  ⟨(c8_usage_routing "say hello").1 (by decide),
   (c8_usage_routing "/connect").2.1 (by decide),
   (c8_usage_routing "/connect mud.example.com xyz").2.2.1 "mud.example.com" "xyz" []
     (by decide) (by decide),
   (c8_usage_routing "/add_server nameA").2.2.2.1 ["namea"] (by decide) (by decide),
   (c8_usage_routing "/add_server nameA mud.example.com xyz").2.2.2.2.1 "namea"
     "mud.example.com" "xyz" [] (by decide) (by decide),
   (c8_usage_routing "/remove_server").2.2.2.2.2.1 (by decide),
   (c8_usage_routing "/load").2.2.2.2.2.2.1 (by decide),
   (c8_usage_routing "/start_log").2.2.2.2.2.2.2.1 (by decide),
   (c8_usage_routing "/set").2.2.2.2.2.2.2.2 (by decide)⟩

/-- C9: after any sequence of command-buffer operations from the fresh
buffer, the history has no two adjacent equal entries and never exceeds
`MAX_HISTORY`; and a `submit` of a nonempty buffer appends the command
unless it equals the last entry (then trims), and resets buffer, cursor
and navigation index. -/
theorem c9_history_bounded_dedup (ops : List Op) (s : CommandBuffer) :
    (List.Chain' (· ≠ ·) ((runOps ops initialCommandBuffer).history) ∧
      (runOps ops initialCommandBuffer).history.length ≤ MAX_HISTORY) ∧
    (s.buffer ≠ [] →
      ((s.submit).2).history =
          trimHist (if s.history.getLast? = some (String.mk s.buffer) then s.history
                    else s.history ++ [String.mk s.buffer]) ∧
      ((s.submit).2).buffer = [] ∧
      ((s.submit).2).cursor_pos = 0 ∧
      ((s.submit).2).current_index = ((s.submit).2).history.length) := by
  constructor
  · exact runOps_inv ops initialCommandBuffer
      ⟨List.chain'_nil, by simp [initialCommandBuffer, MAX_HISTORY]⟩
  · intro hb
    have hb2 : s.buffer.isEmpty = false := by
      simpa [List.isEmpty_iff] using hb
    refine ⟨?_, ?_, ?_, ?_⟩ <;>
      simp [CommandBuffer.submit, CommandBuffer.get_buffer, hb2]

/-- C9 witness: the history theorem evaluated on a concrete operation
sequence and a concrete nonempty buffer. -/
theorem c9_witness :
    (List.Chain' (· ≠ ·) ((runOps [Op.push_key 't', Op.submit] initialCommandBuffer).history) ∧
      (runOps [Op.push_key 't', Op.submit] initialCommandBuffer).history.length ≤ MAX_HISTORY) ∧
    (((({ initialCommandBuffer with buffer := ['h', 'i'] } : CommandBuffer).submit).2).history =
        trimHist
          (if ({ initialCommandBuffer with buffer := ['h', 'i'] } :
                CommandBuffer).history.getLast? = some (String.mk ['h', 'i']) then
            ({ initialCommandBuffer with buffer := ['h', 'i'] } : CommandBuffer).history
          else
            ({ initialCommandBuffer with buffer := ['h', 'i'] } :
              CommandBuffer).history ++ [String.mk ['h', 'i']]) ∧
      ((({ initialCommandBuffer with buffer := ['h', 'i'] } : CommandBuffer).submit).2).buffer
        = [] ∧
      ((({ initialCommandBuffer with buffer := ['h', 'i'] } : CommandBuffer).submit).2).cursor_pos
        = 0 ∧
      ((({ initialCommandBuffer with buffer := ['h', 'i'] } :
          CommandBuffer).submit).2).current_index
        = ((({ initialCommandBuffer with buffer := ['h', 'i'] } :
            CommandBuffer).submit).2).history.length) :=
  ⟨(c9_history_bounded_dedup [Op.push_key 't', Op.submit]
      { initialCommandBuffer with buffer := ['h', 'i'] }).1,
   (c9_history_bounded_dedup [Op.push_key 't', Op.submit]
      { initialCommandBuffer with buffer := ['h', 'i'] }).2 (by decide)⟩

/-- C10: when the TCP attempt fails on a not-connected session with an
empty socket slot, `connect` emits no event, returns false, and leaves
the connected flag false and the slot empty — yet the host and port
fields are overwritten with the attempted endpoint. -/
theorem c10_connect_failure (s : Session) (h : String) (p : Nat)
    (hc : s.connected = false) (hs : s.stream = none) :
    (s.connect h p none).events = [] ∧
    (s.connect h p none).ret = false ∧
    (s.connect h p none).session.connected = false ∧
    (s.connect h p none).session.stream = none ∧
    (s.connect h p none).session.host = h ∧
    (s.connect h p none).session.port = p := by
  simp [Session.connect, hc, hs]

/-- C10 witness: the failed-connect theorem evaluated on the fresh
session. -/
theorem c10_witness :
    (idleSession.connect "mud.example.com" 4000 none).events = [] ∧
    (idleSession.connect "mud.example.com" 4000 none).ret = false ∧
    (idleSession.connect "mud.example.com" 4000 none).session.connected = false ∧
    (idleSession.connect "mud.example.com" 4000 none).session.stream = none ∧
    (idleSession.connect "mud.example.com" 4000 none).session.host = "mud.example.com" ∧
    (idleSession.connect "mud.example.com" 4000 none).session.port = 4000 :=
  c10_connect_failure idleSession "mud.example.com" 4000 rfl rfl

end Blightmud

